import Mathlib

/-!
Verification of the concurrent shared-folder crawler
(`iter_share_files_with_path` in `p115strmhelper/core/p115.py`).

The crawler enumerates a shared directory tree by paginated listing calls
routed through a pool of three API endpoints.  This file embeds the
crawler's data model and control flow shallowly: the page job and the
orchestrator loop become pure Lean functions (the thread pool is modelled
as a sequential loop parametrised by a completion schedule), the remote
client becomes an explicit function from payloads to responses, and
machine errors become `Except` values.
-/

set_option maxRecDepth 10000

namespace P115

/-- Descriptor of one listing endpoint: its diagnostic name and optional
base URL, mirroring the `ApiEndpointInfo` dataclass (cooldown wrapping is
modelled separately by `cooldownTriple`). -/
structure ApiEndpointInfo where
  api_name : String
  base_url : Option String
deriving DecidableEq, Repr

/-- Endpoint `M1` of the spec: `share_snap_app` over `http://pro.api.115.com`. -/
def snap_app_http_info : ApiEndpointInfo :=
  { api_name := "share_snap_app_http", base_url := some "http://pro.api.115.com" }

/-- Endpoint `M2` of the spec: `share_snap_app` over `https://proapi.115.com`. -/
def snap_app_https_info : ApiEndpointInfo :=
  { api_name := "share_snap_app_https", base_url := some "https://proapi.115.com" }

/-- Fallback endpoint `F` of the spec: `share_snap` (cookie API, no base URL
recorded in the dataclass). -/
def snap_api_info : ApiEndpointInfo :=
  { api_name := "share_snap", base_url := none }

/-- The list `repeating_pair = [snap_app_http_info, snap_app_https_info]`. -/
def repeating_pair : List ApiEndpointInfo :=
  [snap_app_http_info, snap_app_https_info]

/-- The list `first_page_api_pool = repeating_pair * 6` with `snap_api_info`
inserted at index 6.  In the source this list is built and then never
consulted: the cycler below iterates `repeating_pair` instead. -/
def first_page_api_pool : List ApiEndpointInfo :=
  ((List.replicate 6 repeating_pair).flatten).insertIdx 6 snap_api_info

/-- The value produced by the k-th call of `next(first_page_api_cycler)`,
where `first_page_api_cycler = cycle(repeating_pair)`. -/
def firstPageNext (k : Nat) : ApiEndpointInfo :=
  repeating_pair.getD (k % repeating_pair.length) snap_api_info

/-- Speed profiles: the dict `speed_configs` of cooldown triples (seconds,
as exact rationals) for the three endpoints, keyed by `speed_mode`. -/
def speed_configs (m : ℤ) : Option (ℚ × ℚ × ℚ) :=
  if m = 0 then some (1/4, 1/4, 3/4)
  else if m = 1 then some (1/2, 1/2, 3/2)
  else if m = 2 then some (1, 1, 2)
  else if m = 3 then some (3/2, 3/2, 2)
  else none

/-- The cooldown triple actually applied:
`speed_configs.get(speed_mode, speed_configs[1])`. -/
def cooldownTriple (speed_mode : ℤ) : ℚ × ℚ × ℚ :=
  (speed_configs speed_mode).getD ((speed_configs 1).getD (0, 0, 0))

/-- One unit of enumeration work: a directory id, the path prefix under
which its entries live, and the listing offset (the tuples
`(cid, path, offset)` of `subdirs_to_scan`). -/
structure DirectoryTask where
  cid : Nat
  path_prefix : String
  offset : Nat
deriving DecidableEq, Repr

/-- A directory entry as the crawler reads it after the external
`normalize_attr` (an external-library normalisation, out of scope here):
the crawler consults exactly the attributes `id`, `name` and `is_dir`. -/
structure Attr where
  id : Nat
  name : String
  is_dir : Bool
deriving DecidableEq, Repr

/-- A normalized leaf entry as yielded to the consumer: the fields of the
attr dict the crawler itself writes. -/
structure FileRecord where
  id : Nat
  name : String
  path : String
  share_code : String
  receive_code : String
deriving DecidableEq, Repr

/-- The `data` object of a listing response; `count` and `list` may each
be absent (`Option`), mirroring `data.get("count", 0)` and
`data.get("list", [])`. -/
structure RespData where
  count : Option Nat := none
  list : Option (List Attr) := none
deriving DecidableEq, Repr

/-- A listing response that has passed `check_response`; the `data` field
may be absent, mirroring `resp.get("data", {})`. -/
structure Resp where
  data : Option RespData := none
deriving DecidableEq, Repr

/-- The request payload of one page job. -/
structure Payload where
  share_code : String
  receive_code : String
  cid : Nat
  limit : Nat
  offset : Nat
  asc : Nat
  o : String
deriving DecidableEq, Repr

/-- Modelled from the spec: the external library helper
`posix_escape_name` (`p115client.util`), which substitutes the path-unsafe
separator character "/" inside a name with the placeholder passed as
`repl`; the crawler calls it with the one-character placeholder "|". -/
def posix_escape_name (name : String) (repl : Char := '|') : String :=
  String.mk (name.toList.map (fun c => if c = '/' then repl else c))

/-- The escaped name of an entry: `posix_escape_name(attr["name"], repl="|")`. -/
def itemName (a : Attr) : String :=
  posix_escape_name a.name '|'

/-- The full path of an entry, source line 231: the prefix, a slash and the
escaped name when the prefix is nonempty, else a slash and the escaped name. -/
def itemPath (pfx : String) (a : Attr) : String :=
  if pfx ≠ "" then pfx ++ "/" ++ itemName a else "/" ++ itemName a

/-- The record built for a non-directory entry: the attr with its escaped
name and computed path, carrying the share and receive codes written into
the dict before normalisation. -/
def fileRecordOf (sc rc pfx : String) (a : Attr) : FileRecord :=
  { id := a.id, name := itemName a, path := itemPath pfx a,
    share_code := sc, receive_code := rc }

/-- The `files_found` list of a page job: every non-directory item, in
order, as a `FileRecord`. -/
def filesOf (sc rc pfx : String) (items : List Attr) : List FileRecord :=
  (items.filter (fun a => !a.is_dir)).map (fileRecordOf sc rc pfx)

/-- The subdirectory part of `subdirs_to_scan`: every directory item, in
order, as a fresh task `(int(attr["id"]), path, 0)`. -/
def subdirTasksOf (pfx : String) (items : List Attr) : List DirectoryTask :=
  (items.filter (fun a => a.is_dir)).map
    (fun a => { cid := a.id, path_prefix := itemPath pfx a, offset := 0 })

/-- The page size: `limit = 1_000`, overwritten with `7_000` when
`offset != 0`. -/
def jobLimit (offset : Nat) : Nat :=
  if offset ≠ 0 then 7000 else 1000

/-- The payload a page job sends: the dict of share_code, receive_code,
cid, limit, offset, asc and o built at source lines 191-199. -/
def jobPayload (sc rc : String) (cid offset asc : Nat) (ord : String) : Payload :=
  { share_code := sc, receive_code := rc, cid := cid, limit := jobLimit offset,
    offset := offset, asc := asc, o := ord }

/-- Rendering of a payload as Python's f-string renders the dict, used in
error enrichment. -/
def payloadRepr (p : Payload) : String :=
  "\x7b'share_code': '" ++ p.share_code ++ "', 'receive_code': '" ++
    p.receive_code ++ "', 'cid': " ++ toString p.cid ++ ", 'limit': " ++
    toString p.limit ++ ", 'offset': " ++ toString p.offset ++ ", 'asc': " ++
    toString p.asc ++ ", 'o': '" ++ p.o ++ "'\x7d"

/-- The diagnostic string `api_info_str`: endpoint name, base URL when the
dataclass holds a truthy one, and the payload used. -/
def apiInfoStr (api : ApiEndpointInfo) (p : Payload) : String :=
  let s := "API: " ++ api.api_name
  let s := match api.base_url with
    | some b => if b = "" then s else s ++ ", Base URL: " ++ b
    | none => s
  s ++ ", Payload: " ++ payloadRepr p

/-- The enriched error message `error_msg`: the original message, " | " and
the diagnostic string, installed on the re-raised exception. -/
def enrichError (api : ApiEndpointInfo) (p : Payload) (e : String) : String :=
  e ++ " | " ++ apiInfoStr api p

/-- The success path of a page job (source lines 220-240): read `data`,
`count` and `list` with their defaults, classify every item into a leaf
record or a subdirectory task, and append one continuation task when
`new_offset < count and len(items) > 0`. -/
def jobProcess (sc rc : String) (cid : Nat) (pfx : String) (offset : Nat)
    (resp : Resp) : List FileRecord × List DirectoryTask :=
  let data := resp.data.getD {}
  let count := data.count.getD 0
  let items := data.list.getD []
  let new_offset := offset + items.length
  let baseTasks := subdirTasksOf pfx items
  let tasks :=
    if new_offset < count ∧ 0 < items.length then
      baseTasks ++ [{ cid := cid, path_prefix := pfx, offset := new_offset }]
    else baseTasks
  (filesOf sc rc pfx items, tasks)

/-- One page job `_job`: build the payload, issue exactly one call of the
endpoint with it, enrich and propagate a failure, and otherwise classify
the response.  The endpoint (its cooldown gate and network call) is the
function `call`. -/
def job (api : ApiEndpointInfo) (call : Payload → Except String Resp)
    (sc rc : String) (cid : Nat) (pfx : String) (offset asc : Nat)
    (ord : String) : Except String (List FileRecord × List DirectoryTask) :=
  let payload := jobPayload sc rc cid offset asc ord
  match call payload with
  | Except.error e => Except.error (enrichError api payload e)
  | Except.ok resp => Except.ok (jobProcess sc rc cid pfx offset resp)

/-- Endpoint selection at submission time (source lines 253-258): a task
with `offset > 0` goes to the fallback `snap_api_info`; otherwise the
cycler over `repeating_pair` advances.  `k` counts cycler calls so far. -/
def selectEndpoint (k : Nat) (offset : Nat) : ApiEndpointInfo × Nat :=
  if offset > 0 then (snap_api_info, k) else (firstPageNext k, k + 1)

/-- Submission of a batch of discovered tasks, in order, each paired with
the endpoint chosen for it; returns the advanced cycler counter. -/
def submitTasks (k : Nat) : List DirectoryTask → Nat × List (ApiEndpointInfo × DirectoryTask)
  | [] => (k, [])
  | t :: ts =>
    let sel := selectEndpoint k t.offset
    let rest := submitTasks sel.2 ts
    (rest.1, (sel.1, t) :: rest.2)

/-- The job execution of one submitted pair: `_job` applied to the chosen
endpoint and the task's arguments. -/
def jobOf (server : ApiEndpointInfo → Payload → Except String Resp)
    (sc rc : String) (asc : Nat) (ord : String)
    (p : ApiEndpointInfo × DirectoryTask) :
    Except String (List FileRecord × List DirectoryTask) :=
  match p with
  | (api, t) => job api (server api) sc rc t.cid t.path_prefix t.offset asc ord

/-- The records of a job outcome: its files on success, nothing on error. -/
def recordsOfJob : Except String (List FileRecord × List DirectoryTask) → List FileRecord
  | Except.error _ => []
  | Except.ok fs => fs.1

/-- Outcome of a crawl in the sequential model of the orchestrator:
a clean end of stream, an abort carrying the first error, or fuel
exhaustion (the model's artefact, never the program's). `records` is the
stream delivered to the consumer and `trace` the executions that actually
ran, in completion order. -/
inductive CrawlResult where
  | done (records : List FileRecord) (trace : List (ApiEndpointInfo × DirectoryTask))
  | aborted (records : List FileRecord) (trace : List (ApiEndpointInfo × DirectoryTask)) (err : String)
  | outOfFuel
deriving DecidableEq, Repr

/-- Records extractor of a crawl outcome. -/
def CrawlResult.records : CrawlResult → List FileRecord
  | CrawlResult.done recs _ => recs
  | CrawlResult.aborted recs _ _ => recs
  | CrawlResult.outOfFuel => []

/-- Trace extractor of a crawl outcome. -/
def CrawlResult.trace : CrawlResult → List (ApiEndpointInfo × DirectoryTask)
  | CrawlResult.done _ tr => tr
  | CrawlResult.aborted _ tr _ => tr
  | CrawlResult.outOfFuel => []

/-- Whether the crawl ended cleanly. -/
def CrawlResult.isDone : CrawlResult → Bool
  | CrawlResult.done _ _ => true
  | _ => false

/-- The orchestrator loop (source lines 246-266), sequentialised: while
executions are pending, `as_completed` hands over one completed execution
— modelled by `sched` choosing which pending entry completes next —
whose records are streamed and whose discovered tasks are submitted; a
failure aborts the crawl, discarding the pending set.  `fuel` bounds the
number of loop iterations in the model. -/
def crawlLoop (server : ApiEndpointInfo → Payload → Except String Resp)
    (sc rc : String) (asc : Nat) (ord : String) :
    Nat → List Nat → Nat → List (ApiEndpointInfo × DirectoryTask) →
      List FileRecord → List (ApiEndpointInfo × DirectoryTask) → CrawlResult
  | _, _, _, [], acc, tr => CrawlResult.done acc tr
  | 0, _, _, _ :: _, _, _ => CrawlResult.outOfFuel
  | fuel + 1, sched, k, p :: ps, acc, tr =>
    let i := sched.headD 0 % (p :: ps).length
    let cur := (p :: ps).getD i p
    let rest := (p :: ps).eraseIdx i
    match jobOf server sc rc asc ord cur with
    | Except.error e => CrawlResult.aborted acc (tr ++ [cur]) e
    | Except.ok fs =>
      let sub := submitTasks k fs.2
      crawlLoop server sc rc asc ord fuel sched.tail sub.1 (rest ++ sub.2)
        (acc ++ fs.1) (tr ++ [cur])

/-- The crawler `iter_share_files_with_path`: seed the root task
`(cid, "", 0)` through the cycler and run the orchestrator loop. -/
def iter_share_files_with_path
    (server : ApiEndpointInfo → Payload → Except String Resp)
    (share_code receive_code : String) (cid : Nat) (ord : String)
    (asc fuel : Nat) (sched : List Nat) : CrawlResult :=
  let sub := submitTasks 0 [{ cid := cid, path_prefix := "", offset := 0 }]
  crawlLoop server share_code receive_code asc ord fuel sched sub.1 sub.2 [] []

/-- A leaf entry of the reference provider: file number `i`. -/
def mkLeaf (i : Nat) : Attr :=
  { id := i, name := "f", is_dir := false }

/-- The response of the reference provider for a flat directory of `total`
leaves: it reports `count = total` and honours offset and limit, returning
the leaves numbered `offset` through `offset + min limit (total - offset) - 1`. -/
def flatResp (total offset limit : Nat) : Resp :=
  { data := some { count := some total,
                   list := some ((List.range' offset (min limit (total - offset))).map mkLeaf) } }

/-- The reference provider of the spec's pagination scenario: every
endpoint serves the same flat directory of `total` leaf entries. -/
def flatServer (total : Nat) : ApiEndpointInfo → Payload → Except String Resp :=
  fun _ p => Except.ok (flatResp total p.offset p.limit)

/-- A provider whose every call fails (transport or logical failure). -/
def failServer : ApiEndpointInfo → Payload → Except String Resp :=
  fun _ _ => Except.error "boom"

/-- The crawl of the spec's pagination scenario: a directory reporting
`count = 2500`, first page of limit 1000 returned in full, later pages
honouring their limit of 7000. -/
def c2run : CrawlResult :=
  iter_share_files_with_path (flatServer 2500) "sc" "rc" 0 "user_ptime" 1 10 []

/-- A response that passes the check, carries a `data` object with a
nonempty `list` but no `count` key. -/
def respCountMissing : Resp :=
  { data := some { count := none, list := some [{ id := 7, name := "g", is_dir := false }] } }

/-- Unfolding equation of one orchestrator iteration on a nonempty pending
set with fuel left. -/
theorem crawlLoop_cons (server : ApiEndpointInfo → Payload → Except String Resp)
    (sc rc : String) (asc : Nat) (ord : String) (fuel : Nat) (sched : List Nat)
    (k : Nat) (p : ApiEndpointInfo × DirectoryTask)
    (ps : List (ApiEndpointInfo × DirectoryTask)) (acc : List FileRecord)
    (tr : List (ApiEndpointInfo × DirectoryTask)) :
    crawlLoop server sc rc asc ord (fuel + 1) sched k (p :: ps) acc tr =
      (let i := sched.headD 0 % (p :: ps).length
       let cur := (p :: ps).getD i p
       let rest := (p :: ps).eraseIdx i
       match jobOf server sc rc asc ord cur with
       | Except.error e => CrawlResult.aborted acc (tr ++ [cur]) e
       | Except.ok fs =>
         let sub := submitTasks k fs.2
         crawlLoop server sc rc asc ord fuel sched.tail sub.1 (rest ++ sub.2)
           (acc ++ fs.1) (tr ++ [cur])) :=
  rfl

/-- On a batch of leaf entries the page job records every entry, in order. -/
theorem filesOf_leaf (sc rc pfx : String) (l : List Nat) :
    filesOf sc rc pfx (l.map mkLeaf) = l.map (fun i => fileRecordOf sc rc pfx (mkLeaf i)) := by
  induction l with
  | nil => rfl
  | cons i l ih =>
    simp only [List.map_cons, filesOf, List.filter_cons, mkLeaf] at ih ⊢
    simp_all

/-- A batch of leaf entries yields no subdirectory task. -/
theorem subdirTasksOf_leaf (pfx : String) (l : List Nat) :
    subdirTasksOf pfx (l.map mkLeaf) = [] := by
  induction l with
  | nil => rfl
  | cons i l ih =>
    simp only [List.map_cons, subdirTasksOf, List.filter_cons, mkLeaf] at ih ⊢
    simp_all

/-- The page job on a page of the reference provider: all served leaves
become records, and a single continuation task appears exactly when the
page was nonempty and ended short of the reported count. -/
theorem jobProcess_flatResp (sc rc : String) (cid : Nat) (pfx : String)
    (o total l : Nat) :
    jobProcess sc rc cid pfx o (flatResp total o l) =
      ((List.range' o (min l (total - o))).map (fun i => fileRecordOf sc rc pfx (mkLeaf i)),
       if o + min l (total - o) < total ∧ 0 < min l (total - o) then
         [{ cid := cid, path_prefix := pfx, offset := o + min l (total - o) }]
       else []) := by
  simp [jobProcess, flatResp, filesOf_leaf, subdirTasksOf_leaf]

/-- Orchestrator step on a singleton pending set whose one job succeeds. -/
theorem crawlLoop_single (server : ApiEndpointInfo → Payload → Except String Resp)
    (sc rc : String) (asc : Nat) (ord : String) (fuel : Nat) (sched : List Nat)
    (k : Nat) (q : ApiEndpointInfo × DirectoryTask) (acc : List FileRecord)
    (tr : List (ApiEndpointInfo × DirectoryTask)) (files : List FileRecord)
    (tasks : List DirectoryTask)
    (h : jobOf server sc rc asc ord q = Except.ok (files, tasks)) :
    crawlLoop server sc rc asc ord (fuel + 1) sched k [q] acc tr =
      crawlLoop server sc rc asc ord fuel sched.tail (submitTasks k tasks).1
        ((submitTasks k tasks).2) (acc ++ files) (tr ++ [q]) := by
  rw [crawlLoop_cons]
  simp [h, Nat.mod_one]

/-- Unfolding equation of one orchestrator iteration, the let bindings
expanded, for case analysis on the completed job's outcome. -/
theorem crawlLoop_cons_eq (server : ApiEndpointInfo → Payload → Except String Resp)
    (sc rc : String) (asc : Nat) (ord : String) (fuel : Nat) (sched : List Nat)
    (k : Nat) (p : ApiEndpointInfo × DirectoryTask)
    (ps : List (ApiEndpointInfo × DirectoryTask)) (acc : List FileRecord)
    (tr : List (ApiEndpointInfo × DirectoryTask)) :
    crawlLoop server sc rc asc ord (fuel + 1) sched k (p :: ps) acc tr =
      match jobOf server sc rc asc ord ((p :: ps).getD (sched.headD 0 % (p :: ps).length) p) with
      | Except.error e => CrawlResult.aborted acc
          (tr ++ [(p :: ps).getD (sched.headD 0 % (p :: ps).length) p]) e
      | Except.ok fs =>
        crawlLoop server sc rc asc ord fuel sched.tail (submitTasks k fs.2).1
          ((p :: ps).eraseIdx (sched.headD 0 % (p :: ps).length) ++ (submitTasks k fs.2).2)
          (acc ++ fs.1) (tr ++ [(p :: ps).getD (sched.headD 0 % (p :: ps).length) p]) := rfl

/-- Every task a page job derives for a subdirectory starts at offset 0. -/
theorem subdirTasksOf_offset_zero (pfx : String) (items : List Attr) :
    ∀ t ∈ subdirTasksOf pfx items, t.offset = 0 := by
  intro t ht
  simp only [subdirTasksOf, List.mem_map, List.mem_filter] at ht
  obtain ⟨a, _, rfl⟩ := ht
  rfl

/-- Full symbolic run of the pagination scenario: the crawl completes with
the 2500 leaves in order and exactly two page jobs, the root page on the
first mirror and the single continuation page on the fallback. -/
theorem c2run_eq :
    c2run = CrawlResult.done
      ((List.range 2500).map (fun i => fileRecordOf "sc" "rc" "" (mkLeaf i)))
      [(snap_app_http_info, { cid := 0, path_prefix := "", offset := 0 }),
       (snap_api_info, { cid := 0, path_prefix := "", offset := 1000 })] := by
  have h1 : jobOf (flatServer 2500) "sc" "rc" 1 "user_ptime"
      (snap_app_http_info, { cid := 0, path_prefix := "", offset := 0 }) =
      Except.ok ((List.range' 0 1000).map (fun i => fileRecordOf "sc" "rc" "" (mkLeaf i)),
        [{ cid := 0, path_prefix := "", offset := 1000 }]) := by
    show Except.ok (jobProcess "sc" "rc" 0 "" 0 (flatResp 2500 0 1000)) = _
    rw [jobProcess_flatResp]
    norm_num
  have h2 : jobOf (flatServer 2500) "sc" "rc" 1 "user_ptime"
      (snap_api_info, { cid := 0, path_prefix := "", offset := 1000 }) =
      Except.ok ((List.range' 1000 1500).map (fun i => fileRecordOf "sc" "rc" "" (mkLeaf i)),
        []) := by
    show Except.ok (jobProcess "sc" "rc" 0 "" 1000 (flatResp 2500 1000 7000)) = _
    rw [jobProcess_flatResp]
    norm_num
  have hr : List.range' 0 1000 ++ List.range' 1000 1500 = List.range 2500 := by
    have h3 := List.range'_append_1 0 1000 1500
    norm_num at h3
    rw [List.range_eq_range']
    exact h3
  show crawlLoop (flatServer 2500) "sc" "rc" 1 "user_ptime" (9 + 1) [] 1
      [(snap_app_http_info, { cid := 0, path_prefix := "", offset := 0 })] [] [] = _
  rw [crawlLoop_single (h := h1)]
  show crawlLoop (flatServer 2500) "sc" "rc" 1 "user_ptime" (8 + 1) [] 1
      [(snap_api_info, { cid := 0, path_prefix := "", offset := 1000 })]
      ((List.range' 0 1000).map (fun i => fileRecordOf "sc" "rc" "" (mkLeaf i)))
      [(snap_app_http_info, { cid := 0, path_prefix := "", offset := 0 })] = _
  rw [crawlLoop_single (h := h2)]
  show CrawlResult.done
      (((List.range' 0 1000).map (fun i => fileRecordOf "sc" "rc" "" (mkLeaf i))) ++
        ((List.range' 1000 1500).map (fun i => fileRecordOf "sc" "rc" "" (mkLeaf i))))
      [(snap_app_http_info, { cid := 0, path_prefix := "", offset := 0 }),
       (snap_api_info, { cid := 0, path_prefix := "", offset := 1000 })] = _
  rw [← List.map_append, hr]

/-- Claim C1, counterexample: the 7th first-page endpoint selection (cycler
call index 6) yields the first mirror, while slot 6 of the constructed
`first_page_api_pool` is the fallback — the pool the claim describes is not
what selection follows. -/
theorem C1_counterexample :
    (selectEndpoint 6 0).1 = snap_app_http_info ∧
    first_page_api_pool.getD 6 snap_app_http_info = snap_api_info ∧
    snap_app_http_info ≠ snap_api_info := by decide

/-- Claim C1, as amended: first-page tasks (offset 0) draw their endpoint by
strict round-robin over the two mirrors alone — the k-th first-page
selection is the http mirror for even k and the https mirror for odd k —
and the fallback endpoint never serves a first-page task (the pool with the
fallback inserted at slot 6 is built but never consulted). -/
theorem C1_first_page_round_robin (k : Nat) :
    (selectEndpoint k 0).1 = firstPageNext k ∧
    firstPageNext k = (if k % 2 = 0 then snap_app_http_info else snap_app_https_info) ∧
    firstPageNext k ≠ snap_api_info := by
  refine ⟨rfl, ?_, ?_⟩ <;>
    rcases Nat.mod_two_eq_zero_or_one k with h | h <;>
      simp [firstPageNext, repeating_pair, h] <;> decide

/-- Claim C2, counterexample: in the spec's pagination scenario (count 2500,
first page of 1000 in full, later pages honouring limit 7000) the executed
page offsets are exactly 0 and 1000 — no task at offset 2000 is ever
created, contradicting the claimed continuation offsets set of 1000 and 2000. -/
theorem C2_counterexample :
    (c2run.trace.map (fun q => q.2.offset)) = [0, 1000] ∧
    2000 ∉ (c2run.trace.map (fun q => q.2.offset)) := by
  rw [c2run_eq]
  exact ⟨rfl, by decide⟩

/-- Claim C2, as amended: in that scenario the crawl completes cleanly, the
only continuation task is at offset 1000 (its page, limit 7000, returns the
remaining 1500 items at once), and every one of the 2500 leaves is yielded
exactly once. -/
theorem C2_amended :
    c2run.isDone = true ∧
    (c2run.trace.map (fun q => q.2.offset)).filter (fun o => o != 0) = [1000] ∧
    c2run.records.map (fun r => r.id) = List.range 2500 := by
  refine ⟨?_, ?_, ?_⟩
  · rw [c2run_eq]
    rfl
  · rw [c2run_eq]
    rfl
  · rw [c2run_eq]
    simp only [CrawlResult.records, List.map_map, Function.comp_def, fileRecordOf, mkLeaf]
    simp

/-- Claim C3: a page job emits a task at nonzero offset — a continuation —
exactly when offset + n is below the reported count and n is positive,
where n is the number of items returned, and that continuation carries the
same directory id, the same path prefix and offset exactly offset + n. -/
theorem C3_continuation (sc rc : String) (cid : Nat) (pfx : String) (off : Nat)
    (resp : Resp) :
    ((jobProcess sc rc cid pfx off resp).2).filter (fun t => t.offset != 0) =
      (if off + ((resp.data.getD {}).list.getD []).length < (resp.data.getD {}).count.getD 0
          ∧ 0 < ((resp.data.getD {}).list.getD []).length then
        [{ cid := cid, path_prefix := pfx,
           offset := off + ((resp.data.getD {}).list.getD []).length }]
      else []) := by
  have hnil : (subdirTasksOf pfx ((resp.data.getD {}).list.getD [])).filter
      (fun t => t.offset != 0) = [] := by
    rw [List.filter_eq_nil_iff]
    intro t ht
    simp [subdirTasksOf_offset_zero pfx _ t ht]
  by_cases hc : off + ((resp.data.getD {}).list.getD []).length < (resp.data.getD {}).count.getD 0
      ∧ 0 < ((resp.data.getD {}).list.getD []).length
  · have hne : off + ((resp.data.getD {}).list.getD []).length ≠ 0 :=
      Nat.ne_of_gt (Nat.lt_of_lt_of_le hc.2 (Nat.le_add_left _ _))
    simp [jobProcess, hc, List.filter_append, hnil, hne]
  · simp [jobProcess, hc, hnil]

/-- Claim C4: every task submitted with a nonzero offset — however many and
however interleaved with first-page submissions — is routed to the fallback
endpoint. -/
theorem C4_continuation_endpoint (k : Nat) (ts : List DirectoryTask)
    (q : ApiEndpointInfo × DirectoryTask) (hmem : q ∈ (submitTasks k ts).2)
    (hoff : 0 < q.2.offset) : q.1 = snap_api_info := by
  induction ts generalizing k with
  | nil => simp [submitTasks] at hmem
  | cons t ts ih =>
    simp only [submitTasks] at hmem
    rcases List.mem_cons.mp hmem with hq | hq
    · subst hq
      simp only at hoff
      simp [selectEndpoint, hoff]
    · exact ih _ hq

/-- Witness for claim C4: a concrete continuation task at offset 5 is
submitted against the fallback endpoint. -/
theorem C4_witness :
    ((snap_api_info, ({ cid := 1, path_prefix := "x", offset := 5 } : DirectoryTask)) ∈
      (submitTasks 0 [{ cid := 1, path_prefix := "x", offset := 5 }]).2) ∧
    (snap_api_info, ({ cid := 1, path_prefix := "x", offset := 5 } : DirectoryTask)).1 =
      snap_api_info :=
  ⟨by decide, C4_continuation_endpoint 0 [{ cid := 1, path_prefix := "x", offset := 5 }]
    (snap_api_info, { cid := 1, path_prefix := "x", offset := 5 }) (by decide) (by decide)⟩

/-- Claim C5: an entry's full path is always the parent prefix, a slash and
the escaped name (also when the prefix is empty); the record of a file and
the prefix of a subdirectory task both carry exactly that path; the
separator inside a name is substituted by the placeholder, so an entry
named a/b appears as a|b in its own path and in every descendant's path. -/
theorem C5_path_escaping (sc rc pfx : String) (a : Attr) :
    itemPath pfx a = pfx ++ "/" ++ itemName a ∧
    (fileRecordOf sc rc pfx a).path = itemPath pfx a ∧
    (∀ t ∈ subdirTasksOf pfx [a], t.path_prefix = itemPath pfx a) ∧
    posix_escape_name "a/b" '|' = "a|b" ∧
    itemPath (itemPath "" { id := 1, name := "a/b", is_dir := true })
      { id := 2, name := "c", is_dir := false } = "/a|b/c" := by
  refine ⟨?_, rfl, ?_, by decide, by decide⟩
  · by_cases h : pfx = ""
    · subst h
      rfl
    · simp [itemPath, h]
  · intro t ht
    by_cases h : a.is_dir <;> simp [subdirTasksOf, h] at ht
    subst ht
    rfl

/-- Claim C6: the payload a page job sends carries limit 1000 when the
job's offset is 0 and limit 7000 otherwise, and carries the job's offset. -/
theorem C6_page_limit (sc rc : String) (cid off asc : Nat) (ord : String) :
    (jobPayload sc rc cid off asc ord).limit = (if off = 0 then 1000 else 7000) ∧
    (jobPayload sc rc cid off asc ord).offset = off := by
  constructor
  · by_cases h : off = 0 <;> simp [jobPayload, jobLimit, h]
  · rfl

/-- Claim C7: whenever the orchestrator aborts, the executed trace ends at
the one job whose execution failed, every job executed before it succeeded,
the stream holds exactly the records of those earlier jobs — none after the
error — and the error surfaced is the failing job's own; the tasks still
pending at that point are discarded unexecuted. -/
theorem C7_fail_fast (server : ApiEndpointInfo → Payload → Except String Resp)
    (sc rc : String) (asc : Nat) (ord : String) :
    ∀ (fuel : Nat) (sched : List Nat) (k : Nat)
      (pending : List (ApiEndpointInfo × DirectoryTask)) (acc : List FileRecord)
      (tr : List (ApiEndpointInfo × DirectoryTask)) (recs : List FileRecord)
      (tr' : List (ApiEndpointInfo × DirectoryTask)) (e : String),
      crawlLoop server sc rc asc ord fuel sched k pending acc tr =
        CrawlResult.aborted recs tr' e →
      ∃ pre cur, tr' = tr ++ pre ++ [cur] ∧
        jobOf server sc rc asc ord cur = Except.error e ∧
        (∀ q ∈ pre, ∃ r, jobOf server sc rc asc ord q = Except.ok r) ∧
        recs = acc ++ pre.flatMap (fun q => recordsOfJob (jobOf server sc rc asc ord q)) := by
  intro fuel
  induction fuel with
  | zero =>
    intro sched k pending acc tr recs tr' e h
    cases pending with
    | nil => simp [crawlLoop] at h
    | cons p ps => simp [crawlLoop] at h
  | succ fuel ih =>
    intro sched k pending acc tr recs tr' e h
    cases pending with
    | nil => simp [crawlLoop] at h
    | cons p ps =>
      rw [crawlLoop_cons_eq] at h
      generalize hcur : (p :: ps).getD (sched.headD 0 % (p :: ps).length) p = cur at h
      cases hj : jobOf server sc rc asc ord cur with
      | error e' =>
        rw [hj] at h
        injection h with h1 h2 h3
        subst h1
        subst h2
        subst h3
        refine ⟨[], cur, by simp, hj, ?_, by simp⟩
        intro q hq
        simp at hq
      | ok fs =>
        rw [hj] at h
        obtain ⟨pre, cur', h1, h2, h3, h4⟩ := ih _ _ _ _ _ _ _ _ h
        refine ⟨cur :: pre, cur', ?_, h2, ?_, ?_⟩
        · rw [h1]
          simp
        · intro q hq
          rcases List.mem_cons.mp hq with hq | hq
          · exact ⟨fs, by rw [hq]; exact hj⟩
          · exact h3 q hq
        · rw [h4]
          simp [recordsOfJob, hj]

/-- Witness for claim C7: a crawl against the failing provider aborts on
its very first job, whose enriched error is surfaced, with no record
streamed. -/
theorem C7_witness :
    (crawlLoop failServer "s" "r" 1 "user_ptime" 1 [] 1
        [(snap_app_http_info, { cid := 0, path_prefix := "", offset := 0 })] [] [] =
      CrawlResult.aborted []
        [(snap_app_http_info, { cid := 0, path_prefix := "", offset := 0 })]
        (enrichError snap_app_http_info (jobPayload "s" "r" 0 0 1 "user_ptime") "boom")) ∧
    (∃ pre cur,
      ([(snap_app_http_info, { cid := 0, path_prefix := "", offset := 0 })] :
          List (ApiEndpointInfo × DirectoryTask)) = [] ++ pre ++ [cur] ∧
      jobOf failServer "s" "r" 1 "user_ptime" cur =
        Except.error (enrichError snap_app_http_info (jobPayload "s" "r" 0 0 1 "user_ptime") "boom") ∧
      (∀ q ∈ pre, ∃ r, jobOf failServer "s" "r" 1 "user_ptime" q = Except.ok r) ∧
      ([] : List FileRecord) = [] ++ pre.flatMap
        (fun q => recordsOfJob (jobOf failServer "s" "r" 1 "user_ptime" q))) :=
  ⟨rfl, C7_fail_fast failServer "s" "r" 1 "user_ptime" 1 [] 1
    [(snap_app_http_info, { cid := 0, path_prefix := "", offset := 0 })] [] [] []
    [(snap_app_http_info, { cid := 0, path_prefix := "", offset := 0 })]
    (enrichError snap_app_http_info (jobPayload "s" "r" 0 0 1 "user_ptime") "boom") rfl⟩

/-- Claim C8: a page job whose single listing call fails raises an error
whose message is the original one enriched with the endpoint name, the
base identifier and the exact payload used; and the job's outcome depends
on the endpoint only through its response to that one payload — there is
no second call to retry. -/
theorem C8_error_enrichment (api : ApiEndpointInfo)
    (call call' : Payload → Except String Resp) (sc rc : String) (cid : Nat)
    (pfx : String) (off asc : Nat) (ord e : String)
    (h : call (jobPayload sc rc cid off asc ord) = Except.error e)
    (h' : call' (jobPayload sc rc cid off asc ord) = call (jobPayload sc rc cid off asc ord)) :
    job api call sc rc cid pfx off asc ord =
      Except.error (e ++ " | " ++ apiInfoStr api (jobPayload sc rc cid off asc ord)) ∧
    job api call' sc rc cid pfx off asc ord = job api call sc rc cid pfx off asc ord := by
  constructor
  · simp [job, h, enrichError]
  · simp [job, h', h]

/-- Witness for claim C8: a concrete always-failing endpoint produces the
enriched message for the root payload. -/
theorem C8_witness :
    ((fun _ : Payload => (Except.error "boom" : Except String Resp))
        (jobPayload "s" "r" 0 0 1 "user_ptime") = Except.error "boom") ∧
    job snap_app_http_info (fun _ => Except.error "boom") "s" "r" 0 "" 0 1 "user_ptime" =
      Except.error ("boom" ++ " | " ++
        apiInfoStr snap_app_http_info (jobPayload "s" "r" 0 0 1 "user_ptime")) :=
  ⟨rfl, (C8_error_enrichment snap_app_http_info (fun _ => Except.error "boom")
    (fun _ => Except.error "boom") "s" "r" 0 "" 0 1 "user_ptime" "boom" rfl rfl).1⟩

/-- Claim C9: for any speed_mode outside 0, 1, 2 and 3 the cooldown lookup
does not fail and falls back to the speed-mode-1 triple of 0.5, 0.5 and
1.5 seconds. -/
theorem C9_speed_mode_fallback (m : ℤ) (h0 : m ≠ 0) (h1 : m ≠ 1) (h2 : m ≠ 2)
    (h3 : m ≠ 3) : cooldownTriple m = (1/2, 1/2, 3/2) := by
  simp [cooldownTriple, speed_configs, h0, h1, h2, h3]

/-- Witness for claim C9: speed_mode 5 gets the speed-mode-1 cooldowns. -/
theorem C9_witness :
    ((5:ℤ) ≠ 0 ∧ (5:ℤ) ≠ 1 ∧ (5:ℤ) ≠ 2 ∧ (5:ℤ) ≠ 3) ∧
    cooldownTriple 5 = (1/2, 1/2, 3/2) :=
  ⟨by decide, C9_speed_mode_fallback 5 (by decide) (by decide) (by decide) (by decide)⟩

/-- Claim C10, counterexample: a response whose `data` is present with a
nonempty `list` but no `count` key satisfies the claim's antecedent, yet
the page job returns a nonempty record list, not the claimed empty pair. -/
theorem C10_counterexample :
    respCountMissing.data ≠ none ∧
    (respCountMissing.data.getD {}).count = none ∧
    (jobProcess "s" "r" 0 "" 0 respCountMissing).1 ≠ [] := by decide

/-- Claim C10, as amended: a missing `data` or a missing `list` makes the
page job return empty record and task lists; a missing `count` is read as
0 — which suppresses the continuation task — while the items of a present
`list` are still classified normally; no case raises a key error. -/
theorem C10_missing_keys (sc rc : String) (cid : Nat) (pfx : String) (off : Nat)
    (resp : Resp) :
    (resp.data = none → jobProcess sc rc cid pfx off resp = ([], [])) ∧
    (∀ d, resp.data = some d → d.list = none →
      jobProcess sc rc cid pfx off resp = ([], [])) ∧
    (∀ d, resp.data = some d → d.count = none →
      (jobProcess sc rc cid pfx off resp).1 = filesOf sc rc pfx (d.list.getD []) ∧
      (jobProcess sc rc cid pfx off resp).2 = subdirTasksOf pfx (d.list.getD [])) := by
  refine ⟨?_, ?_, ?_⟩
  · intro h
    simp [jobProcess, h, filesOf, subdirTasksOf]
  · intro d hd hl
    simp [jobProcess, hd, hl, filesOf, subdirTasksOf]
  · intro d hd hc
    simp [jobProcess, hd, hc]

/-- Witness for claim C10: the three concrete degenerate responses — no
data, no list, no count — behave as the amended claim states. -/
theorem C10_witness :
    (jobProcess "s" "r" 0 "" 0 ({ data := none } : Resp) = ([], [])) ∧
    (jobProcess "s" "r" 0 "" 0
      ({ data := some { count := some 5, list := none } } : Resp) = ([], [])) ∧
    ((jobProcess "s" "r" 0 "" 0 respCountMissing).1 =
        filesOf "s" "r" "" [{ id := 7, name := "g", is_dir := false }] ∧
      (jobProcess "s" "r" 0 "" 0 respCountMissing).2 =
        subdirTasksOf "" [{ id := 7, name := "g", is_dir := false }]) :=
  ⟨(C10_missing_keys "s" "r" 0 "" 0 _).1 rfl,
   (C10_missing_keys "s" "r" 0 "" 0 _).2.1 _ rfl rfl,
   (C10_missing_keys "s" "r" 0 "" 0 respCountMissing).2.2 _ rfl rfl⟩

end P115
